import Mathlib

/-!
Shallow embedding of the TelegramParserApi repository: the parser module
(channel resolution, private-invite join protocol, trailing-24h activity
aggregation, channel-info orchestration with a deadline) and the database
module (channel upsert and the two lookup operations).  Remote interactions
are modelled by an oracle giving the outcome of each remote call; Python
exceptions are modelled with `Except`.
-/

/-- Shared channel model (`shared_models.Channel`): produced by the
parser's `get_channel` and persisted by the database's
`update_or_create_channel`. -/
structure ChannelModel where
  channel_id : Nat
  link : String
  name : String
  description : String
  subscribers : Nat
  views : Nat
  posts_count : Nat
  deriving DecidableEq, Repr

namespace Parser

/-- Library-specific exception classes appearing in the source
(telethon errors and the Python builtin `ValueError`); `rpcOther` stands
for any other exception class raised by a remote call. -/
inductive LibError where
  | valueError
  | floodWait (seconds : Nat)
  | inviteHashExpired
  | userDeactivatedBan (msg : String)
  | userAlreadyParticipant
  | inviteRequestSent
  | rpcOther (msg : String)
  deriving DecidableEq, Repr

/-- Domain errors raised by the parser: the `shared_models.parser.errors`
classes (`FloodWait`, `InvalidChannelLink`, `UserBan`,
`CannotGetChannelInfo`) plus the `TimeoutError` re-raised on deadline
expiry in `get_channel_info`. -/
inductive DomainError where
  | floodWait (seconds : Nat)
  | invalidChannelLink (link msg : String)
  | userBan (msg : String)
  | cannotGetChannelInfo (link : String)
  | timeout
  deriving DecidableEq, Repr

/-- An error surfacing from the parser is either an untranslated library
error (it escaped every handler) or a translated domain error. -/
inductive PyErr where
  | lib (e : LibError)
  | dom (e : DomainError)
  deriving DecidableEq, Repr

/-- A message from `client.iter_messages`: `dateWall` is the wall-clock
value of `post.date` in epoch seconds, `tzOffset` is the zone's UTC offset
in seconds when the datetime is zone-aware (`none` for a naive datetime),
`views` is `post.views` (nullable). -/
structure Message where
  dateWall : Int
  tzOffset : Option Int
  views : Option Nat
  deriving DecidableEq, Repr

/-- Timestamp of `post.date.replace(tzinfo=UTC) if post.date.tzinfo is None
else post.date` (parser.py line 86): a naive datetime is reinterpreted as
UTC (offset 0), an aware one keeps its own offset. -/
def post_date_ts (p : Message) : Int :=
  p.dateWall - (p.tzOffset.getD 0)

/-- In-window test of the scan: the loop continues while the post's
normalized timestamp is not strictly below the cutoff. -/
def in_window (cutoff : Int) (p : Message) : Bool :=
  decide (cutoff ≤ post_date_ts p)

/-- Loop body of `Parser.__get_posts` (parser.py lines 84-91): stop at the
first post strictly older than the cutoff, otherwise overwrite `views`
with the post's view count when it is non-null and increment `count`. -/
def get_posts_loop (cutoff : Int) : List Message → Nat → Nat → Nat × Nat
  | [], views, count => (views, count)
  | p :: ps, views, count =>
    if post_date_ts p < cutoff then (views, count)
    else get_posts_loop cutoff ps
      (match p.views with
       | some v => v
       | none => views) (count + 1)

/-- `Parser.__get_posts` (parser.py lines 78-93): cutoff is
`now - timedelta(hours=24)` and the accumulators start at `views = 0`,
`count = 0`; returns `(views, count)`. -/
def get_posts (now : Int) (posts : List Message) : Nat × Nat :=
  get_posts_loop (now - 86400) posts 0 0

/-- Adjacent non-increasing order of normalized timestamps: the stream is
newest-first as the remote source guarantees. -/
def sorted_by_date_desc : List Message → Bool
  | [] => true
  | [_] => true
  | p :: q :: rest =>
    decide (post_date_ts q ≤ post_date_ts p) && sorted_by_date_desc (q :: rest)

/-- Spec-side count: the number of posts whose normalized timestamp is
at least `now - 24h`. -/
def postCountSpec (now : Int) (posts : List Message) : Nat :=
  (posts.filter (in_window (now - 86400))).length

/-- Spec-side views value: the last non-null view count encountered while
scanning the in-window posts newest-to-oldest, i.e. the view count of the
oldest in-window post carrying one, with the code's default 0 when no
in-window post carries a view count. -/
def viewsSpecLastNonNull (now : Int) (posts : List Message) : Nat :=
  ((posts.filter (in_window (now - 86400))).filterMap Message.views).getLastD 0

/-- Modelled from the spec's words (claim wording, not the code): the view
count of the most recent in-window post with a non-null view count. -/
def viewsSpecMostRecent (now : Int) (posts : List Message) : Option Nat :=
  ((posts.filter (in_window (now - 86400))).filterMap Message.views).head?

/-- Resolved channel entity (`telethon.tl.types.Channel`): opaque id and
display title. -/
structure Entity where
  id : Nat
  title : String
  deriving DecidableEq, Repr

/-- Full channel data (the `full_chat` of a `ChatFull`): id, about text and
participant count. -/
structure ChatFull where
  id : Nat
  about : String
  participants_count : Nat
  deriving DecidableEq, Repr

/-- Raw bytes of a downloaded profile photo. -/
abbrev Bytes := List Nat

/-- Rendering of `str(e)` for a library exception, used where the source
embeds the exception message into a domain error. -/
def errMsg : LibError → String
  | .valueError => "ValueError"
  | .floodWait _ => "FloodWaitError"
  | .inviteHashExpired => "InviteHashExpiredError"
  | .userDeactivatedBan m => m
  | .userAlreadyParticipant => "UserAlreadyParticipantError"
  | .inviteRequestSent => "InviteRequestSentError"
  | .rpcOther m => m

/-- Scheme stripping in `Parser.get_channel` (parser.py lines 61-64):
`url.removeprefix` of one leading scheme, on the character list of the
string. -/
def strip_scheme (url : String) : String :=
  if "https://".data.isPrefixOf url.data then ⟨url.data.drop 8⟩
  else if "http://".data.isPrefixOf url.data then ⟨url.data.drop 7⟩
  else url

/-- Invite-hash extraction in `Parser.join_private_channel` (parser.py
lines 43-45): the segment after the last slash, with one leading plus
sign removed. -/
def invite_hash (url : String) : String :=
  match (url.data.splitOn '/').getLastD [] with
  | '+' :: rest => ⟨rest⟩
  | seg => ⟨seg⟩

/-- Observable remote-interaction events of one request, in order. -/
inductive Event where
  | lookup
  | importInvite
  | sleep (seconds : Nat)
  | fullChannel
  | iterMessages
  | downloadPhoto
  deriving DecidableEq, Repr

/-- Outcomes of the remote calls made during one request.  `getEntity n`
is the result of the (n+1)-st `get_entity` call of the request, so a
lookup may fail first and succeed on a later retry.  `timedOut` states
whether the orchestration exceeded the 60-second deadline. -/
structure Oracle where
  getEntity : Nat → Except LibError (Option Entity)
  importChatInvite : String → Except LibError Unit
  getFullChannel : Except LibError ChatFull
  iterMessages : Except LibError (List Message)
  downloadProfilePhoto : Except LibError Bytes
  now : Int
  timedOut : Bool

/-- Retry loop of `Parser.join_private_channel` (parser.py lines 51-57):
each of the up-to-`fuel` iterations sleeps 10 seconds and retries the
direct lookup, continuing only on `ValueError`; once the loop is
exhausted the final unconditional lookup of line 57 runs (with no sleep)
and its outcome — success or failure — is returned as is.  A successful
retry returns immediately; a non-`ValueError` exception propagates. -/
def retry_lookups (o : Oracle) (fuel idx : Nat) :
    List Event × Nat × Except LibError (Option Entity) :=
  match fuel with
  | 0 => ([.lookup], idx + 1, o.getEntity idx)
  | n + 1 =>
    match o.getEntity idx with
    | .error .valueError =>
      let r := retry_lookups o n (idx + 1)
      (.sleep 10 :: .lookup :: r.1, r.2.1, r.2.2)
    | r => ([.sleep 10, .lookup], idx + 1, r)

/-- `Parser.join_private_channel` (parser.py lines 42-57): submit the
join-by-invite request; on `UserAlreadyParticipantError` or on plain
success fall through to a direct lookup; on `InviteRequestSentError` run
the retry loop; any other exception propagates.  `idx` is the number of
`get_entity` calls already made in this request. -/
def join_private_channel (o : Oracle) (url : String) (idx : Nat) :
    List Event × Nat × Except LibError (Option Entity) :=
  match o.importChatInvite (invite_hash url) with
  | .ok _ => ([.importInvite, .lookup], idx + 1, o.getEntity idx)
  | .error .userAlreadyParticipant =>
    ([.importInvite, .lookup], idx + 1, o.getEntity idx)
  | .error .inviteRequestSent =>
    let r := retry_lookups o 3 idx
    (.importInvite :: r.1, r.2.1, r.2.2)
  | .error e => ([.importInvite], idx, .error e)

/-- Translation applied by the handlers of `Parser.get_channel_entity`
around the `join_private_channel` call (parser.py lines 28-33): the three
listed library exceptions become domain errors, anything else escapes
untranslated. -/
def translate_join_error (link : String) : LibError → PyErr
  | .inviteHashExpired =>
    .dom (.invalidChannelLink link (errMsg .inviteHashExpired))
  | .floodWait s => .dom (.floodWait s)
  | .userDeactivatedBan m => .dom (.userBan m)
  | e => .lib e

/-- `Parser.get_channel_entity` (parser.py lines 22-40): direct lookup,
with `ValueError` routed to the private-join protocol, `FloodWaitError`
translated to `FloodWait`, any other exception translated to
`InvalidChannelLink`, and a null entity reported as
`CannotGetChannelInfo`. -/
def get_channel_entity (o : Oracle) (link : String) :
    List Event × Nat × Except PyErr Entity :=
  match o.getEntity 0 with
  | .ok (some e) => ([.lookup], 1, .ok e)
  | .ok none => ([.lookup], 1, .error (.dom (.cannotGetChannelInfo link)))
  | .error .valueError =>
    match join_private_channel o link 1 with
    | (t, i, .ok (some e)) => (.lookup :: t, i, .ok e)
    | (t, i, .ok none) =>
      (.lookup :: t, i, .error (.dom (.cannotGetChannelInfo link)))
    | (t, i, .error e) => (.lookup :: t, i, .error (translate_join_error link e))
  | .error (.floodWait s) => ([.lookup], 1, .error (.dom (.floodWait s)))
  | .error e => ([.lookup], 1, .error (.dom (.invalidChannelLink link (errMsg e))))

/-- `Parser.get_channel` (parser.py lines 59-76): full-profile fetch
(whose exceptions are not handled anywhere), scheme stripping of the
url, the 24h post scan, and construction of the shared channel model. -/
def get_channel (o : Oracle) (entity : Entity) (url : String) :
    List Event × Except PyErr ChannelModel :=
  match o.getFullChannel with
  | .error e => ([.fullChannel], .error (.lib e))
  | .ok cf =>
    match o.iterMessages with
    | .error e => ([.fullChannel, .iterMessages], .error (.lib e))
    | .ok posts =>
      let vc := get_posts o.now posts
      ([.fullChannel, .iterMessages],
       .ok ⟨cf.id, strip_scheme url, entity.title, cf.about,
            cf.participants_count, vc.1, vc.2⟩)

/-- Inbound request (`GetChannelInfoRequest`). -/
structure GetChannelInfoRequest where
  channel_link : String
  get_logo : Bool
  deriving DecidableEq, Repr

/-- Response (`GetChannelInfoResponse`): the channel model and an optional
profile photo. -/
structure GetChannelInfoResponse where
  channel : ChannelModel
  logo : Option Bytes
  deriving DecidableEq, Repr

/-- `Parser._get_channel_info_internal` (parser.py lines 117-129): resolve
the entity, then (only when `get_logo` is set) fetch the profile photo
with every failure swallowed to a null logo, then fetch the channel
model. -/
def get_channel_info_internal (o : Oracle) (req : GetChannelInfoRequest) :
    List Event × Except PyErr GetChannelInfoResponse :=
  match get_channel_entity o req.channel_link with
  | (t1, _, .error e) => (t1, .error e)
  | (t1, _, .ok ent) =>
    let logoStep : List Event × Option Bytes :=
      if req.get_logo then
        ([.downloadPhoto],
         match o.downloadProfilePhoto with
         | .ok b => some b
         | .error _ => none)
      else ([], none)
    match get_channel o ent req.channel_link with
    | (t3, .error e) => (t1 ++ logoStep.1 ++ t3, .error e)
    | (t3, .ok ci) => (t1 ++ logoStep.1 ++ t3, .ok ⟨ci, logoStep.2⟩)

/-- `Parser.get_channel_info` (parser.py lines 102-115): run the internal
orchestration under the 60-second deadline; on expiry call
`mark_as_ban` on the acquired client (the Nat counts those calls) and
fail with the timeout domain error; otherwise no ban mark is made and
the internal outcome is returned. -/
def get_channel_info (o : Oracle) (req : GetChannelInfoRequest) :
    Nat × Except PyErr GetChannelInfoResponse :=
  if o.timedOut then (1, .error (.dom .timeout))
  else (0, (get_channel_info_internal o req).2)

/-- Posts of the spec's aggregation example relative to `now = 0`: one
hour old with 10 views, two hours old with a null view count,
twenty-six hours old with 999 views. -/
def examplePosts : List Message :=
  [⟨-3600, none, some 10⟩, ⟨-7200, none, none⟩, ⟨-93600, none, some 999⟩]

/-- Stream exposing the views overwrite order: both posts are in the
window and both carry view counts; the most recent has 10, the older 5. -/
def overwritePosts : List Message :=
  [⟨-3600, none, some 10⟩, ⟨-7200, none, some 5⟩]

/-- Oracle of a fully successful request. -/
def oResolved : Oracle where
  getEntity := fun _ => .ok (some ⟨7, "chan"⟩)
  importChatInvite := fun _ => .ok ()
  getFullChannel := .ok ⟨7, "about", 1000⟩
  iterMessages := .ok examplePosts
  downloadProfilePhoto := .ok [1, 2, 3]
  now := 0
  timedOut := false

/-- Oracle where resolution succeeds but the full-profile fetch raises a
`FloodWaitError`. -/
def oFloodFull : Oracle :=
  { oResolved with getFullChannel := .error (.floodWait 30) }

/-- Oracle of a request whose orchestration exceeds the deadline. -/
def oTimeout : Oracle :=
  { oResolved with timedOut := true }

/-- Oracle of a queued join: every early lookup reports not-found, the
join request is answered as queued, and the fourth lookup fails with a
generic error. -/
def oQueued : Oracle where
  getEntity := fun n =>
    if n ≤ 3 then .error .valueError else .error (.rpcOther "still pending")
  importChatInvite := fun _ => .error .inviteRequestSent
  getFullChannel := .ok ⟨7, "about", 1000⟩
  iterMessages := .ok examplePosts
  downloadProfilePhoto := .ok [1, 2, 3]
  now := 0
  timedOut := false

/-- Oracle whose initial direct lookup is rate limited. -/
def oFloodInitial : Oracle :=
  { oResolved with getEntity := fun _ => .error (.floodWait 30) }

/-- Oracle where only the profile-photo download fails. -/
def oLogoFail : Oracle :=
  { oResolved with downloadProfilePhoto := .error (.rpcOther "netfail") }

/-- Oracle whose initial direct lookup fails with a generic exception
(not a `ValueError`). -/
def oLookupFail : Oracle :=
  { oResolved with getEntity := fun _ => .error (.rpcOther "bad link") }

end Parser

namespace Database

/-- Row of the `Channel` table: the primary key `id` plus the fields
written by `update_or_create`. -/
structure ChannelRow where
  id : Nat
  name : String
  description : String
  link : String
  deriving DecidableEq, Repr

/-- Row of the `ChannelStatistics` table: the snapshot fields plus the
auto-set `recorded_at` timestamp. -/
structure ChannelStatisticsRow where
  channel_id : Nat
  subscribers : Nat
  views_24h : Nat
  posts_count : Nat
  recorded_at : Nat
  deriving DecidableEq, Repr

/-- Contents of the two tables. -/
structure DB where
  channels : List ChannelRow
  stats : List ChannelStatisticsRow
  deriving DecidableEq, Repr

/-- Errors of `shared_models.database.errors`, each carrying the channel
id or the (normalized) link it was raised for. -/
inductive DbError where
  | channelDoesNotExistError (key : Nat ⊕ String)
  | statsDoesNotExistError (key : Nat ⊕ String)
  deriving DecidableEq, Repr

/-- Scheme stripping in `Database.get_channel_by_link` (database.py lines
83-86): `link.removeprefix` of one leading scheme, on the character list
of the string. -/
def strip_scheme (link : String) : String :=
  if "https://".data.isPrefixOf link.data then ⟨link.data.drop 8⟩
  else if "http://".data.isPrefixOf link.data then ⟨link.data.drop 7⟩
  else link

/-- Response of the two lookups: `last_update` is the timestamp of the
newest statistics row, `channel` the shared model built from the channel
row and that statistics row. -/
structure GetChannelResponse where
  last_update : Nat
  channel : ChannelModel
  deriving DecidableEq, Repr

/-- Lookup `Channel.get(id=...)`: the first row with the id. -/
def find_channel (db : DB) (cid : Nat) : Option ChannelRow :=
  db.channels.find? (fun c => c.id == cid)

/-- Lookup `Channel.get(link=...)`: the first row with the link. -/
def find_channel_by_link (db : DB) (link : String) : Option ChannelRow :=
  db.channels.find? (fun c => c.link == link)

/-- Query `ChannelStatistics.filter(channel=channel)` followed by
`order_by("-recorded_at").first()`: the newest statistics row of the
channel. -/
def latest_stat (db : DB) (cid : Nat) : Option ChannelStatisticsRow :=
  (List.insertionSort (fun a b => b.recorded_at ≤ a.recorded_at)
    (db.stats.filter (fun s => s.channel_id == cid))).head?

/-- Shared model built by both lookups from a channel row and a
statistics row. -/
def row_to_model (ch : ChannelRow) (st : ChannelStatisticsRow) :
    ChannelModel :=
  ⟨ch.id, ch.link, ch.name, ch.description, st.subscribers, st.views_24h,
   st.posts_count⟩

/-- `Database.get_channel` (database.py lines 52-77). -/
def get_channel (db : DB) (cid : Nat) : Except DbError GetChannelResponse :=
  match find_channel db cid with
  | none => .error (.channelDoesNotExistError (.inl cid))
  | some ch =>
    match latest_stat db ch.id with
    | none => .error (.statsDoesNotExistError (.inl cid))
    | some st => .ok ⟨st.recorded_at, row_to_model ch st⟩

/-- `Database.get_channel_by_link` (database.py lines 79-106): the
requested link is scheme-stripped, then compared against stored links. -/
def get_channel_by_link (db : DB) (link0 : String) :
    Except DbError GetChannelResponse :=
  let link := strip_scheme link0
  match find_channel_by_link db link with
  | none => .error (.channelDoesNotExistError (.inr link))
  | some ch =>
    match latest_stat db ch.id with
    | none => .error (.statsDoesNotExistError (.inr link))
    | some st => .ok ⟨st.recorded_at, row_to_model ch st⟩

/-- `Database.update_or_create_channel` (database.py lines 31-50): upsert
the channel row by id, then unconditionally create a statistics row in
both branches; `now` stands for the auto-set `recorded_at` of the
created row; the Bool is the `record_created` flag. -/
def update_or_create_channel (db : DB) (channel : ChannelModel) (now : Nat) :
    DB × Bool :=
  let stat : ChannelStatisticsRow :=
    ⟨channel.channel_id, channel.subscribers, channel.views,
     channel.posts_count, now⟩
  match find_channel db channel.channel_id with
  | some _ =>
    (⟨db.channels.map (fun c =>
        if c.id == channel.channel_id then
          { c with name := channel.name, description := channel.description,
                   link := channel.link }
        else c),
      db.stats ++ [stat]⟩, false)
  | none =>
    (⟨db.channels ++
        [⟨channel.channel_id, channel.name, channel.description,
          channel.link⟩],
      db.stats ++ [stat]⟩, true)

/-- Database with one channel that has no statistics rows. -/
def exampleDB : DB :=
  ⟨[⟨1, "name", "desc", "t.me/foo"⟩], []⟩

end Database

namespace Parser

theorem get_posts_loop_eq (cutoff : Int) :
    ∀ (ps : List Message) (v c : Nat),
      get_posts_loop cutoff ps v c =
        (((ps.takeWhile (in_window cutoff)).filterMap Message.views).getLastD v,
         c + (ps.takeWhile (in_window cutoff)).length) := by
  intro ps
  induction ps with
  | nil => intro v c; simp [get_posts_loop]
  | cons p ps ih =>
    intro v c
    by_cases h : post_date_ts p < cutoff
    · have hw : ¬ in_window cutoff p = true := by
        simp [in_window]; omega
      simp [get_posts_loop, h, List.takeWhile_cons_of_neg hw]
    · have hw : in_window cutoff p = true := by
        simp [in_window]; omega
      have hstep : get_posts_loop cutoff (p :: ps) v c
          = get_posts_loop cutoff ps
              (match p.views with
               | some x => x
               | none => v) (c + 1) := by
        simp [get_posts_loop, h]
      rw [hstep, ih, List.takeWhile_cons_of_pos hw]
      cases hv : p.views with
      | none =>
        simp only [hv, List.filterMap_cons, List.length_cons, Prod.mk.injEq]
        exact ⟨trivial, by omega⟩
      | some x =>
        simp only [hv, List.filterMap_cons, List.length_cons,
          List.getLastD_cons, Prod.mk.injEq]
        exact ⟨trivial, by omega⟩

theorem sorted_by_date_desc_tail {p : Message} {ps : List Message}
    (h : sorted_by_date_desc (p :: ps) = true) :
    sorted_by_date_desc ps = true := by
  cases ps with
  | nil => rfl
  | cons q rest =>
    simp only [sorted_by_date_desc, Bool.and_eq_true] at h
    exact h.2

theorem sorted_by_date_desc_head_le {p : Message} {ps : List Message}
    (h : sorted_by_date_desc (p :: ps) = true) :
    ∀ q ∈ ps, post_date_ts q ≤ post_date_ts p := by
  induction ps generalizing p with
  | nil => intro q hq; cases hq
  | cons r rest ih =>
    simp only [sorted_by_date_desc, Bool.and_eq_true, decide_eq_true_eq] at h
    intro q hq
    cases hq with
    | head => exact h.1
    | tail _ hq =>
      exact le_trans (ih h.2 q hq) h.1

theorem takeWhile_eq_filter_of_sorted (cutoff : Int) :
    ∀ (ps : List Message), sorted_by_date_desc ps = true →
      ps.takeWhile (in_window cutoff) = ps.filter (in_window cutoff) := by
  intro ps
  induction ps with
  | nil => intro _; rfl
  | cons p ps ih =>
    intro hs
    by_cases hw : in_window cutoff p = true
    · simp [List.takeWhile_cons, List.filter_cons, hw,
        ih (sorted_by_date_desc_tail hs)]
    · have hw' : in_window cutoff p = false := by
        simpa using hw
      have hfil : ps.filter (in_window cutoff) = [] := by
        rw [List.filter_eq_nil_iff]
        intro q hq
        have hle := sorted_by_date_desc_head_le hs q hq
        have hp : post_date_ts p < cutoff := by
          simp [in_window] at hw'; omega
        simp [in_window]; omega
      simp [List.takeWhile_cons, List.filter_cons, hw', hfil]

/-- Characterization of the whole scan on a newest-first stream. -/
theorem get_posts_eq_spec (now : Int) (posts : List Message)
    (hs : sorted_by_date_desc posts = true) :
    get_posts now posts =
      (viewsSpecLastNonNull now posts, postCountSpec now posts) := by
  unfold get_posts viewsSpecLastNonNull postCountSpec
  rw [get_posts_loop_eq, takeWhile_eq_filter_of_sorted (now - 86400) posts hs]
  simp


end Parser

/-- C1: over a newest-first stream the aggregate scan of `__get_posts`
counts exactly the posts whose normalized-to-UTC timestamp is at least
`now - 24h` (a post with no explicit zone is treated as UTC), stopping
at the first post strictly older than the cutoff, and returns as views
the last non-null view count encountered while scanning newest-to-oldest
within the window — the view count of the oldest in-window post carrying
one; in particular over the example posts (one hour old with 10 views,
two hours old with a null count, twenty-six hours old with 999 views) it
yields two posts and 10 views. -/
theorem aggregate_scan_spec (now : Int) (posts : List Parser.Message)
    (hs : Parser.sorted_by_date_desc posts = true) :
    Parser.get_posts now posts =
      (Parser.viewsSpecLastNonNull now posts, Parser.postCountSpec now posts) ∧
    Parser.get_posts 0 Parser.examplePosts = (10, 2) :=
  ⟨Parser.get_posts_eq_spec now posts hs, by decide⟩

/-- Witness for C1 at the spec's example stream. -/
theorem aggregate_scan_spec_witness :
    Parser.sorted_by_date_desc Parser.examplePosts = true ∧
    Parser.get_posts 0 Parser.examplePosts = (10, 2) :=
  ⟨by decide, (aggregate_scan_spec 0 Parser.examplePosts (by decide)).2⟩

/-- C2 counterexample: over two in-window posts carrying view counts 10
(the most recent) and 5 (the older), the scan returns views 5, not the
most recent in-window non-null view count 10 — the claim as stated fails
on the code. -/
theorem views_most_recent_cex :
    Parser.get_posts 0 Parser.overwritePosts = (5, 2) ∧
    Parser.viewsSpecMostRecent 0 Parser.overwritePosts = some 10 ∧
    (5 : Nat) ≠ 10 := by decide

/-- C2 amended: over a newest-first stream with at least one in-window
post carrying a non-null view count, the returned views value equals the
view count of the oldest such in-window post (the last non-null value
encountered while scanning newest-to-oldest), not the most recent one. -/
theorem views_oldest_nonnull (now : Int) (posts : List Parser.Message)
    (hs : Parser.sorted_by_date_desc posts = true) (v : Nat)
    (hv : ((posts.filter (Parser.in_window (now - 86400))).filterMap
        Parser.Message.views).getLast? = some v) :
    (Parser.get_posts now posts).1 = v := by
  rw [Parser.get_posts_eq_spec now posts hs]
  simp only [Parser.viewsSpecLastNonNull]
  rw [List.getLastD_eq_getLast?, hv]
  rfl

/-- Witness for C2's amended statement at the overwrite stream. -/
theorem views_oldest_nonnull_witness :
    Parser.sorted_by_date_desc Parser.overwritePosts = true ∧
    ((Parser.overwritePosts.filter (Parser.in_window (0 - 86400))).filterMap
        Parser.Message.views).getLast? = some 5 ∧
    (Parser.get_posts 0 Parser.overwritePosts).1 = 5 :=
  ⟨by decide, by decide,
   views_oldest_nonnull 0 Parser.overwritePosts (by decide) 5 (by decide)⟩


namespace Parser

theorem retry_lookups_zero (o : Oracle) (idx : Nat) :
    retry_lookups o 0 idx = ([.lookup], idx + 1, o.getEntity idx) := rfl

theorem retry_lookups_succ (o : Oracle) (n idx : Nat)
    (h : o.getEntity idx = .error .valueError) :
    retry_lookups o (n + 1) idx =
      (.sleep 10 :: .lookup :: (retry_lookups o n (idx + 1)).1,
       (retry_lookups o n (idx + 1)).2) := by
  simp [retry_lookups, h]

theorem retry_lookups_flood (o : Oracle) (n idx s : Nat)
    (h : o.getEntity idx = .error (.floodWait s)) :
    retry_lookups o (n + 1) idx =
      ([.sleep 10, .lookup], idx + 1, .error (.floodWait s)) := by
  simp [retry_lookups, h]

theorem retry_lookups_no_download (o : Oracle) (fuel : Nat) :
    ∀ idx, Event.downloadPhoto ∉ (retry_lookups o fuel idx).1 := by
  induction fuel with
  | zero => intro idx; simp [retry_lookups]
  | succ n ih =>
    intro idx
    cases h : o.getEntity idx with
    | ok v => simp [retry_lookups, h]
    | error e =>
      cases e <;> simp [retry_lookups, h] <;> exact ih (idx + 1)

theorem join_no_download (o : Oracle) (url : String) (idx : Nat) :
    Event.downloadPhoto ∉ (join_private_channel o url idx).1 := by
  cases h : o.importChatInvite (invite_hash url) with
  | ok v => simp [join_private_channel, h]
  | error e =>
    cases e <;> simp [join_private_channel, h] <;>
      exact retry_lookups_no_download o 3 idx

theorem entity_no_download (o : Oracle) (link : String) :
    Event.downloadPhoto ∉ (get_channel_entity o link).1 := by
  unfold get_channel_entity
  cases h0 : o.getEntity 0 with
  | ok v => cases v <;> simp
  | error e =>
    cases e with
    | valueError =>
      rcases hj : join_private_channel o link 1 with ⟨t, i, r⟩
      have ht := join_no_download o link 1
      rw [hj] at ht
      rcases r with e2 | v
      · simpa using ht
      · rcases v with _ | ent <;> simpa using ht
    | floodWait s => simp
    | inviteHashExpired => simp
    | userDeactivatedBan m => simp
    | userAlreadyParticipant => simp
    | inviteRequestSent => simp
    | rpcOther m => simp

theorem channel_no_download (o : Oracle) (ent : Entity) (url : String) :
    Event.downloadPhoto ∉ (get_channel o ent url).1 := by
  unfold get_channel
  cases o.getFullChannel with
  | error e => simp
  | ok cf =>
    cases o.iterMessages with
    | error e => simp
    | ok posts => simp

end Parser

/-- C3 counterexample: with resolution succeeding and the full-profile
fetch raising a `FloodWaitError`, `get_channel_info` surfaces the raw
library error to the caller — a remote-library error type crosses the
core boundary, so the claim as stated fails on the code. -/
theorem error_taxonomy_cex :
    Parser.get_channel_info Parser.oFloodFull ⟨"https://t.me/foo", false⟩ =
      (0, .error (.lib (.floodWait 30))) := by
  rfl

/-- C3 amended: translation into the closed taxonomy happens only at the
entity-resolution stage and there only through the installed handlers: a
FloodWait, InviteHashExpired or UserDeactivatedBan signal raised
anywhere during resolution is translated into a domain error and never
surfaces as a library error, and any failure of the initial direct
lookup is translated; but other library errors escaping the join
protocol propagate raw, as do library errors of the full-profile fetch
or the post iteration (see the counterexample). -/
theorem error_taxonomy_resolution (o : Parser.Oracle) (link : String) :
    (∀ s, (Parser.get_channel_entity o link).2.2 ≠
        .error (.lib (.floodWait s))) ∧
    ((Parser.get_channel_entity o link).2.2 ≠
        .error (.lib .inviteHashExpired)) ∧
    (∀ m, (Parser.get_channel_entity o link).2.2 ≠
        .error (.lib (.userDeactivatedBan m))) ∧
    (∀ e, o.getEntity 0 = .error e → e ≠ .valueError →
        ∃ d, (Parser.get_channel_entity o link).2.2 = .error (.dom d)) := by
  unfold Parser.get_channel_entity
  cases h0 : o.getEntity 0 with
  | ok v =>
    cases v with
    | none =>
      exact ⟨fun s => by simp, by simp, fun m => by simp,
        fun e he => by cases he⟩
    | some ent =>
      exact ⟨fun s => by simp, by simp, fun m => by simp,
        fun e he => by cases he⟩
  | error e0 =>
    cases e0 with
    | valueError =>
      rcases hj : Parser.join_private_channel o link 1 with ⟨t, i, r⟩
      rcases r with e2 | v
      · cases e2 <;>
          exact ⟨fun s => by simp [Parser.translate_join_error],
            by simp [Parser.translate_join_error],
            fun m => by simp [Parser.translate_join_error],
            fun e he hne => by cases he; exact absurd rfl hne⟩
      · rcases v with _ | ent <;>
          exact ⟨fun s => by simp, by simp, fun m => by simp,
            fun e he hne => by cases he; exact absurd rfl hne⟩
    | floodWait s0 =>
      exact ⟨fun s => by simp, by simp, fun m => by simp,
        fun e he hne => ⟨.floodWait s0, by simp⟩⟩
    | inviteHashExpired =>
      exact ⟨fun s => by simp, by simp, fun m => by simp,
        fun e he hne => ⟨.invalidChannelLink link
          (Parser.errMsg .inviteHashExpired), by simp⟩⟩
    | userDeactivatedBan m0 =>
      exact ⟨fun s => by simp, by simp, fun m => by simp,
        fun e he hne => ⟨.invalidChannelLink link
          (Parser.errMsg (.userDeactivatedBan m0)), by simp⟩⟩
    | userAlreadyParticipant =>
      exact ⟨fun s => by simp, by simp, fun m => by simp,
        fun e he hne => ⟨.invalidChannelLink link
          (Parser.errMsg .userAlreadyParticipant), by simp⟩⟩
    | inviteRequestSent =>
      exact ⟨fun s => by simp, by simp, fun m => by simp,
        fun e he hne => ⟨.invalidChannelLink link
          (Parser.errMsg .inviteRequestSent), by simp⟩⟩
    | rpcOther m0 =>
      exact ⟨fun s => by simp, by simp, fun m => by simp,
        fun e he hne => ⟨.invalidChannelLink link
          (Parser.errMsg (.rpcOther m0)), by simp⟩⟩

/-- Witness for C3's amended statement: a generic failure of the initial
direct lookup is translated to the InvalidChannelLink domain error. -/
theorem error_taxonomy_resolution_witness :
    Parser.oLookupFail.getEntity 0 = .error (.rpcOther "bad link") ∧
    ∃ d, (Parser.get_channel_entity Parser.oLookupFail "t.me/foo").2.2 =
      .error (.dom d) :=
  ⟨rfl, (error_taxonomy_resolution Parser.oLookupFail "t.me/foo").2.2.2
    (.rpcOther "bad link") rfl (by simp)⟩

/-- C4: on deadline expiry `get_channel_info` marks the acquired client
banned exactly once and fails with the timeout domain error, which is a
taxonomy error (never a raw library error) distinct from every
remote-reported error kind. -/
theorem deadline_marks_ban_once (o : Parser.Oracle)
    (req : Parser.GetChannelInfoRequest) (h : o.timedOut = true) :
    Parser.get_channel_info o req = (1, .error (.dom .timeout)) ∧
    (∀ e, Parser.PyErr.dom .timeout ≠ .lib e) ∧
    (∀ s, Parser.DomainError.timeout ≠ .floodWait s) ∧
    (∀ l m, Parser.DomainError.timeout ≠ .invalidChannelLink l m) ∧
    (∀ m, Parser.DomainError.timeout ≠ .userBan m) ∧
    (∀ l, Parser.DomainError.timeout ≠ .cannotGetChannelInfo l) :=
  ⟨by simp [Parser.get_channel_info, h], fun e => by simp,
   fun s => by simp, fun l m => by simp, fun m => by simp, fun l => by simp⟩

/-- Witness for C4 on a timed-out request. -/
theorem deadline_marks_ban_once_witness :
    Parser.oTimeout.timedOut = true ∧
    Parser.get_channel_info Parser.oTimeout ⟨"t.me/foo", true⟩ =
      (1, .error (.dom .timeout)) :=
  ⟨rfl, (deadline_marks_ban_once Parser.oTimeout ⟨"t.me/foo", true⟩ rfl).1⟩

/-- C5: when the join request is answered as queued (the protocol
invocation resolve makes after its initial lookup, so lookup indices
start at 1) and all three retry lookups report not-found, exactly three
retry lookups occur, each preceded by a 10-second sleep, followed by one
final unconditional lookup with no sleep whose outcome — success or
failure — is returned as is, so its failure propagates to the caller. -/
theorem queued_join_retries (o : Parser.Oracle) (url : String)
    (himp : o.importChatInvite (Parser.invite_hash url) =
      .error .inviteRequestSent)
    (h1 : o.getEntity 1 = .error .valueError)
    (h2 : o.getEntity 2 = .error .valueError)
    (h3 : o.getEntity 3 = .error .valueError) :
    Parser.join_private_channel o url 1 =
      ([.importInvite, .sleep 10, .lookup, .sleep 10, .lookup, .sleep 10,
        .lookup, .lookup], 5, o.getEntity 4) := by
  have e3 := Parser.retry_lookups_succ o 2 1 h1
  have e2 := Parser.retry_lookups_succ o 1 2 h2
  have e1 := Parser.retry_lookups_succ o 0 3 h3
  have e0 := Parser.retry_lookups_zero o 4
  simp [Parser.join_private_channel, himp, e3, e2, e1, e0]

/-- Witness for C5 at a concrete queued-join oracle whose final lookup
fails. -/
theorem queued_join_retries_witness :
    Parser.oQueued.importChatInvite (Parser.invite_hash "t.me/+abc") =
      .error .inviteRequestSent ∧
    Parser.join_private_channel Parser.oQueued "t.me/+abc" 1 =
      ([.importInvite, .sleep 10, .lookup, .sleep 10, .lookup, .sleep 10,
        .lookup, .lookup], 5, .error (.rpcOther "still pending")) :=
  ⟨rfl, (queued_join_retries Parser.oQueued "t.me/+abc" rfl rfl rfl rfl).trans
    (by rfl)⟩

/-- C6: a rate-limit signal at any stage of resolution aborts it
immediately with the FloodWait domain error carrying the mandated wait
seconds and with no further lookup and no retry of the rate-limited
call: at the initial direct lookup, at the join-by-invite request, at
the lookup after an already-participant response, and at the first retry
lookup of the queued-join poll. -/
theorem rate_limit_aborts (o : Parser.Oracle) (link : String) (s : Nat) :
    (o.getEntity 0 = .error (.floodWait s) →
      Parser.get_channel_entity o link =
        ([.lookup], 1, .error (.dom (.floodWait s)))) ∧
    (o.getEntity 0 = .error .valueError →
      o.importChatInvite (Parser.invite_hash link) = .error (.floodWait s) →
      Parser.get_channel_entity o link =
        ([.lookup, .importInvite], 1, .error (.dom (.floodWait s)))) ∧
    (o.getEntity 0 = .error .valueError →
      o.importChatInvite (Parser.invite_hash link) =
        .error .userAlreadyParticipant →
      o.getEntity 1 = .error (.floodWait s) →
      Parser.get_channel_entity o link =
        ([.lookup, .importInvite, .lookup], 2,
         .error (.dom (.floodWait s)))) ∧
    (o.getEntity 0 = .error .valueError →
      o.importChatInvite (Parser.invite_hash link) =
        .error .inviteRequestSent →
      o.getEntity 1 = .error (.floodWait s) →
      Parser.get_channel_entity o link =
        ([.lookup, .importInvite, .sleep 10, .lookup], 2,
         .error (.dom (.floodWait s)))) := by
  refine ⟨fun h0 => ?_, fun h0 himp => ?_, fun h0 himp h1 => ?_,
    fun h0 himp h1 => ?_⟩
  · simp [Parser.get_channel_entity, h0]
  · simp [Parser.get_channel_entity, Parser.join_private_channel, h0, himp,
      Parser.translate_join_error]
  · simp [Parser.get_channel_entity, Parser.join_private_channel, h0, himp,
      h1, Parser.translate_join_error]
  · have hf := Parser.retry_lookups_flood o 2 1 s h1
    simp [Parser.get_channel_entity, Parser.join_private_channel, h0, himp,
      hf, Parser.translate_join_error]

/-- Witness for C6: a rate-limited initial lookup. -/
theorem rate_limit_aborts_witness :
    Parser.oFloodInitial.getEntity 0 = .error (.floodWait 30) ∧
    Parser.get_channel_entity Parser.oFloodInitial "t.me/foo" =
      ([.lookup], 1, .error (.dom (.floodWait 30))) :=
  ⟨rfl, (rate_limit_aborts Parser.oFloodInitial "t.me/foo" 30).1 rfl⟩

/-- C7: link normalization strips exactly one leading scheme; the
parser-side and database-side implementations are the same function; the
three reference forms all normalize to the same stored link and a double
scheme is stripped only once; the parser stores the normalized link in
the profile it builds; and the database lookup depends on the requested
link only through its normalized form. -/
theorem link_normalization :
    (∀ u, Parser.strip_scheme u = Database.strip_scheme u) ∧
    Parser.strip_scheme "https://t.me/foo" = "t.me/foo" ∧
    Parser.strip_scheme "http://t.me/foo" = "t.me/foo" ∧
    Parser.strip_scheme "t.me/foo" = "t.me/foo" ∧
    Parser.strip_scheme "https://https://t.me/foo" = "https://t.me/foo" ∧
    (∀ (o : Parser.Oracle) (ent : Parser.Entity) (url : String) cf posts,
      o.getFullChannel = .ok cf → o.iterMessages = .ok posts →
      Parser.get_channel o ent url =
        ([.fullChannel, .iterMessages],
         .ok ⟨cf.id, Parser.strip_scheme url, ent.title, cf.about,
              cf.participants_count, (Parser.get_posts o.now posts).1,
              (Parser.get_posts o.now posts).2⟩)) ∧
    (∀ (db : Database.DB) (l1 l2 : String),
      Database.strip_scheme l1 = Database.strip_scheme l2 →
      Database.get_channel_by_link db l1 = Database.get_channel_by_link db l2) := by
  refine ⟨fun u => rfl, by decide, by decide, by decide, by decide,
    fun o ent url cf posts hcf hpost => ?_, fun db l1 l2 h => ?_⟩
  · simp [Parser.get_channel, hcf, hpost]
  · simp only [Database.get_channel_by_link, h]

/-- Witness for C7: the parser stores the stripped link for an
https-schemed url, and the database lookup treats the schemed and the
bare link alike. -/
theorem link_normalization_witness :
    Parser.get_channel Parser.oResolved ⟨7, "chan"⟩ "https://t.me/foo" =
      ([.fullChannel, .iterMessages],
       .ok ⟨7, "t.me/foo", "chan", "about", 1000, 10, 2⟩) ∧
    Database.get_channel_by_link Database.exampleDB "https://t.me/foo" =
      Database.get_channel_by_link Database.exampleDB "t.me/foo" :=
  ⟨(link_normalization.2.2.2.2.2.1 Parser.oResolved ⟨7, "chan"⟩
      "https://t.me/foo" ⟨7, "about", 1000⟩ Parser.examplePosts rfl rfl).trans
    (by rfl),
   link_normalization.2.2.2.2.2.2 Database.exampleDB "https://t.me/foo"
     "t.me/foo" (by decide)⟩

/-- C8: with `get_logo` false no photo download is ever attempted and a
successful response carries a null logo; with `get_logo` true and a
failing download, when the rest of the request succeeds the response is
still the successful profile with a null logo — an image-fetch failure
never fails the overall operation. -/
theorem logo_best_effort (o : Parser.Oracle)
    (req : Parser.GetChannelInfoRequest) :
    (req.get_logo = false →
      Parser.Event.downloadPhoto ∉ (Parser.get_channel_info_internal o req).1 ∧
      ∀ resp, (Parser.get_channel_info_internal o req).2 = .ok resp →
        resp.logo = none) ∧
    (∀ e ent cf posts, req.get_logo = true →
      o.downloadProfilePhoto = .error e →
      (Parser.get_channel_entity o req.channel_link).2.2 = .ok ent →
      o.getFullChannel = .ok cf →
      o.iterMessages = .ok posts →
      (Parser.get_channel_info_internal o req).2 =
        .ok ⟨⟨cf.id, Parser.strip_scheme req.channel_link, ent.title,
              cf.about, cf.participants_count,
              (Parser.get_posts o.now posts).1,
              (Parser.get_posts o.now posts).2⟩, none⟩) := by
  constructor
  · intro hlogo
    rcases hge : Parser.get_channel_entity o req.channel_link with ⟨t1, i1, r1⟩
    have ht1 : Parser.Event.downloadPhoto ∉ t1 := by
      have h := Parser.entity_no_download o req.channel_link
      rw [hge] at h
      exact h
    rcases r1 with e1 | ent
    · constructor
      · simpa [Parser.get_channel_info_internal, hge] using ht1
      · intro resp hresp
        simp [Parser.get_channel_info_internal, hge] at hresp
    · rcases hgc : Parser.get_channel o ent req.channel_link with ⟨t3, r3⟩
      have ht3 : Parser.Event.downloadPhoto ∉ t3 := by
        have h := Parser.channel_no_download o ent req.channel_link
        rw [hgc] at h
        exact h
      rcases r3 with e3 | ci
      · constructor
        · simp [Parser.get_channel_info_internal, hge, hgc, hlogo,
            List.mem_append]
          exact ⟨ht1, ht3⟩
        · intro resp hresp
          simp [Parser.get_channel_info_internal, hge, hgc, hlogo] at hresp
      · constructor
        · simp [Parser.get_channel_info_internal, hge, hgc, hlogo,
            List.mem_append]
          exact ⟨ht1, ht3⟩
        · intro resp hresp
          simp [Parser.get_channel_info_internal, hge, hgc, hlogo] at hresp
          rw [← hresp]
  · intro e ent cf posts hlogo hdl hent hcf hpost
    rcases hge : Parser.get_channel_entity o req.channel_link with ⟨t1, i1, r1⟩
    rw [hge] at hent
    simp only at hent
    subst hent
    simp [Parser.get_channel_info_internal, hge, Parser.get_channel, hcf,
      hpost, hlogo, hdl]

/-- Witness for C8: with a failing photo download the request still
succeeds with a null logo, and with `get_logo` false no download event
occurs. -/
theorem logo_best_effort_witness :
    Parser.oLogoFail.downloadProfilePhoto = .error (.rpcOther "netfail") ∧
    (Parser.get_channel_info_internal Parser.oLogoFail
        ⟨"https://t.me/foo", true⟩).2 =
      .ok ⟨⟨7, "t.me/foo", "chan", "about", 1000, 10, 2⟩, none⟩ ∧
    Parser.Event.downloadPhoto ∉
      (Parser.get_channel_info_internal Parser.oLogoFail
        ⟨"https://t.me/foo", false⟩).1 :=
  ⟨rfl,
   ((logo_best_effort Parser.oLogoFail ⟨"https://t.me/foo", true⟩).2
      (.rpcOther "netfail") ⟨7, "chan"⟩ ⟨7, "about", 1000⟩
      Parser.examplePosts rfl rfl rfl rfl rfl).trans (by rfl),
   ((logo_best_effort Parser.oLogoFail ⟨"https://t.me/foo", false⟩).1 rfl).1⟩

namespace Database

theorem latest_stat_nil (db : DB) (cid : Nat)
    (h : db.stats.filter (fun s => s.channel_id == cid) = []) :
    latest_stat db cid = none := by
  simp [latest_stat, h]

theorem latest_stat_some (db : DB) (cid : Nat)
    (h : db.stats.filter (fun s => s.channel_id == cid) ≠ []) :
    ∃ st, latest_stat db cid = some st := by
  unfold latest_stat
  cases hs : List.insertionSort (fun a b => b.recorded_at ≤ a.recorded_at)
      (db.stats.filter (fun s => s.channel_id == cid)) with
  | nil =>
    exfalso
    have hlen := List.length_insertionSort
      (fun a b => b.recorded_at ≤ a.recorded_at)
      (db.stats.filter (fun s => s.channel_id == cid))
    rw [hs] at hlen
    exact h (List.eq_nil_of_length_eq_zero hlen.symm)
  | cons a l => exact ⟨a, rfl⟩

theorem find_append_new (l : List ChannelRow) (row : ChannelRow)
    (h : l.find? (fun c => c.id == row.id) = none) :
    (l ++ [row]).find? (fun c => c.id == row.id) = some row := by
  rw [List.find?_append, h]
  simp

theorem find_map_update (i : Nat) (f : ChannelRow → ChannelRow)
    (hid : ∀ c : ChannelRow, c.id = i → (f c).id = i) :
    ∀ l : List ChannelRow, (∃ c, l.find? (fun c => c.id == i) = some c) →
      ∃ r, (l.map (fun c => if c.id == i then f c else c)).find?
          (fun c => c.id == i) = some r ∧ r.id = i := by
  intro l
  induction l with
  | nil => intro hc; simp at hc
  | cons x xs ih =>
    intro hc
    by_cases hx : x.id = i
    · have hb : (x.id == i) = true := by simp [hx]
      have hfb : ((f x).id == i) = true := by simp [hid x hx]
      refine ⟨f x, ?_, hid x hx⟩
      simp only [List.map_cons, hb, if_true]
      exact List.find?_cons_of_pos _ hfb
    · have hb : (x.id == i) = false := by simp [hx]
      rcases hc with ⟨c, hc⟩
      rw [List.find?_cons_of_neg _ (by simp [hx])] at hc
      rcases ih ⟨c, hc⟩ with ⟨r, hr, hri⟩
      refine ⟨r, ?_, hri⟩
      simp only [List.map_cons, hb, if_false]
      rw [List.find?_cons_of_neg _ (by simp [hx])]
      exact hr

theorem stats_filter_append_ne_nil (stats : List ChannelStatisticsRow)
    (st : ChannelStatisticsRow) (cid : Nat) (h : st.channel_id = cid) :
    (stats ++ [st]).filter (fun s => s.channel_id == cid) ≠ [] := by
  rw [List.filter_append]
  intro hc
  rcases List.append_eq_nil.mp hc with ⟨_, h2⟩
  simp [h] at h2

end Database

/-- C9: an unknown channel id (or link) makes the lookup fail with
ChannelDoesNotExist; a known channel with zero statistics rows makes it
fail with StatsDoNotExist; the two error kinds are distinct from each
other, and each is distinguishable from any successful result. -/
theorem lookup_error_kinds (db : Database.DB) (cid : Nat) (link : String) :
    (Database.find_channel db cid = none →
      Database.get_channel db cid =
        .error (.channelDoesNotExistError (.inl cid))) ∧
    (∀ ch, Database.find_channel db cid = some ch →
      db.stats.filter (fun s => s.channel_id == ch.id) = [] →
      Database.get_channel db cid =
        .error (.statsDoesNotExistError (.inl cid))) ∧
    (Database.find_channel_by_link db (Database.strip_scheme link) = none →
      Database.get_channel_by_link db link =
        .error (.channelDoesNotExistError
          (.inr (Database.strip_scheme link)))) ∧
    (∀ ch, Database.find_channel_by_link db (Database.strip_scheme link) =
        some ch →
      db.stats.filter (fun s => s.channel_id == ch.id) = [] →
      Database.get_channel_by_link db link =
        .error (.statsDoesNotExistError
          (.inr (Database.strip_scheme link)))) ∧
    (∀ k q, Database.DbError.channelDoesNotExistError k ≠
        .statsDoesNotExistError q) ∧
    (∀ k (r : Database.GetChannelResponse),
      (Except.error (Database.DbError.channelDoesNotExistError k) :
        Except Database.DbError Database.GetChannelResponse) ≠ .ok r) ∧
    (∀ k (r : Database.GetChannelResponse),
      (Except.error (Database.DbError.statsDoesNotExistError k) :
        Except Database.DbError Database.GetChannelResponse) ≠ .ok r) := by
  refine ⟨fun h => ?_, fun ch h hf => ?_, fun h => ?_, fun ch h hf => ?_,
    fun k q => by simp, fun k r => by simp, fun k r => by simp⟩
  · simp [Database.get_channel, h]
  · have hl := Database.latest_stat_nil db ch.id hf
    simp [Database.get_channel, h, hl]
  · simp [Database.get_channel_by_link, h]
  · have hl := Database.latest_stat_nil db ch.id hf
    simp [Database.get_channel_by_link, h, hl]

/-- Witness for C9 on a database holding one channel with no statistics
rows: an unknown id gives ChannelDoesNotExist, the known id and the
schemed link of the known channel give StatsDoNotExist. -/
theorem lookup_error_kinds_witness :
    Database.find_channel Database.exampleDB 2 = none ∧
    Database.get_channel Database.exampleDB 2 =
      .error (.channelDoesNotExistError (.inl 2)) ∧
    Database.get_channel Database.exampleDB 1 =
      .error (.statsDoesNotExistError (.inl 1)) ∧
    Database.get_channel_by_link Database.exampleDB "https://t.me/foo" =
      .error (.statsDoesNotExistError (.inr "t.me/foo")) :=
  ⟨rfl,
   (lookup_error_kinds Database.exampleDB 2 "x").1 rfl,
   (lookup_error_kinds Database.exampleDB 1 "x").2.1
     ⟨1, "name", "desc", "t.me/foo"⟩ rfl rfl,
   ((lookup_error_kinds Database.exampleDB 1 "https://t.me/foo").2.2.2.1
     ⟨1, "name", "desc", "t.me/foo"⟩ rfl rfl).trans (by rfl)⟩

/-- C10: every successful `update_or_create_channel` appends a new
statistics row unconditionally — in the update branch as well as the
create branch — so a subsequent `get_channel` for that channel id
succeeds and in particular can no longer raise StatsDoNotExist. -/
theorem upsert_appends_stats (db : Database.DB) (channel : ChannelModel)
    (now : Nat) :
    ((Database.update_or_create_channel db channel now).1.stats =
      db.stats ++ [⟨channel.channel_id, channel.subscribers, channel.views,
                    channel.posts_count, now⟩]) ∧
    (∃ r, Database.get_channel
        (Database.update_or_create_channel db channel now).1
        channel.channel_id = .ok r) ∧
    (∀ k, Database.get_channel
        (Database.update_or_create_channel db channel now).1
        channel.channel_id ≠ .error (.statsDoesNotExistError k)) := by
  cases hfind : Database.find_channel db channel.channel_id with
  | none =>
    have hstats : (Database.update_or_create_channel db channel now).1.stats =
        db.stats ++ [⟨channel.channel_id, channel.subscribers, channel.views,
                      channel.posts_count, now⟩] := by
      simp [Database.update_or_create_channel, hfind]
    have hch : (Database.update_or_create_channel db channel now).1.channels =
        db.channels ++ [⟨channel.channel_id, channel.name,
          channel.description, channel.link⟩] := by
      simp [Database.update_or_create_channel, hfind]
    have hfind2 : Database.find_channel
        (Database.update_or_create_channel db channel now).1
        channel.channel_id =
        some ⟨channel.channel_id, channel.name, channel.description,
              channel.link⟩ := by
      unfold Database.find_channel
      rw [hch]
      exact Database.find_append_new db.channels
        ⟨channel.channel_id, channel.name, channel.description, channel.link⟩
        hfind
    have hne := Database.stats_filter_append_ne_nil db.stats
      ⟨channel.channel_id, channel.subscribers, channel.views,
       channel.posts_count, now⟩ channel.channel_id rfl
    have hne2 : (Database.update_or_create_channel db channel now).1.stats.filter
        (fun s => s.channel_id == channel.channel_id) ≠ [] := by
      rw [hstats]; exact hne
    rcases Database.latest_stat_some _ channel.channel_id hne2 with ⟨st, hst⟩
    refine ⟨hstats, ⟨⟨st.recorded_at, Database.row_to_model
      ⟨channel.channel_id, channel.name, channel.description, channel.link⟩
      st⟩, ?_⟩, ?_⟩
    · simp [Database.get_channel, hfind2, hst]
    · intro k
      simp [Database.get_channel, hfind2, hst]
  | some c =>
    have hstats : (Database.update_or_create_channel db channel now).1.stats =
        db.stats ++ [⟨channel.channel_id, channel.subscribers, channel.views,
                      channel.posts_count, now⟩] := by
      simp [Database.update_or_create_channel, hfind]
    have hch : (Database.update_or_create_channel db channel now).1.channels =
        db.channels.map (fun c =>
          if c.id == channel.channel_id then
            { c with name := channel.name,
                     description := channel.description,
                     link := channel.link }
          else c) := by
      simp [Database.update_or_create_channel, hfind]
    have hmap := Database.find_map_update channel.channel_id
      (fun c => { c with name := channel.name,
                         description := channel.description,
                         link := channel.link })
      (fun c hc => hc) db.channels ⟨c, hfind⟩
    rcases hmap with ⟨r, hr, hri⟩
    have hfind2 : Database.find_channel
        (Database.update_or_create_channel db channel now).1
        channel.channel_id = some r := by
      unfold Database.find_channel
      rw [hch]
      exact hr
    have hne := Database.stats_filter_append_ne_nil db.stats
      ⟨channel.channel_id, channel.subscribers, channel.views,
       channel.posts_count, now⟩ channel.channel_id rfl
    have hne2 : (Database.update_or_create_channel db channel now).1.stats.filter
        (fun s => s.channel_id == r.id) ≠ [] := by
      rw [hstats, hri]; exact hne
    rcases Database.latest_stat_some _ r.id hne2 with ⟨st, hst⟩
    refine ⟨hstats, ⟨⟨st.recorded_at, Database.row_to_model r st⟩, ?_⟩, ?_⟩
    · simp [Database.get_channel, hfind2, hst]
    · intro k
      simp [Database.get_channel, hfind2, hst]
